import Mathlib

/-!
# Verification of the SQLAlchemy type engine (`lib/sqlalchemy/sql/sqltypes.py`)

A shallow embedding of the parts of the module that the specification's
claims are about: the expression adaptation engine
(`HasExpressionLookup.Comparator._adapt_expression`,
`Concatenable.Comparator._adapt_expression`), the schema-bound variant
resolution (`SchemaType._is_impl_for_variant`,
`Boolean._should_create_constraint`), the Enum lookup machinery
(`Enum._setup_for_values`, `Enum._db_value_for_elem`,
`Enum._object_value_for_elem`), the numeric result processors
(`Numeric.result_processor`, `Float.result_processor`), the JSON bind
processor (`JSON._make_bind_processor`), ARRAY indexing
(`ARRAY.Comparator._setup_getitem`) and Boolean coercion
(`Boolean._strict_as_bool`, `Boolean.bind_processor`).

Python dicts are embedded as insertion-ordered association lists where a
later insertion for the same key overrides an earlier one; identity (`is`)
comparisons between singleton class objects are embedded as decidable
equality on an enumerated type of classes, and identity of type instances
is embedded as equality of numeric instance identifiers.
-/

namespace SqlTypes

/-- Lookup in a Python dict represented as an insertion-ordered association
list: the most recent insertion for a key wins, so we scan from the end. -/
def dfind? {α β : Type} [DecidableEq α] (ps : List (α × β)) (k : α) : Option β :=
  (ps.reverse.find? (fun p => p.1 = k)).map (·.2)

@[simp] theorem dfind?_nil {α β : Type} [DecidableEq α] (k : α) :
    dfind? ([] : List (α × β)) k = none := rfl

theorem dfind?_append {α β : Type} [DecidableEq α] (ps qs : List (α × β)) (k : α) :
    dfind? (ps ++ qs) k = ((dfind? qs k).or (dfind? ps k)) := by
  simp only [dfind?, List.reverse_append, List.find?_append]
  cases h : List.find? (fun p => decide (p.1 = k)) qs.reverse <;>
    simp [Option.or, h]

theorem dfind?_concat {α β : Type} [DecidableEq α] (ps : List (α × β)) (k k' : α) (v : β) :
    dfind? (ps ++ [(k', v)]) k = if k' = k then some v else dfind? ps k := by
  rw [dfind?_append]
  by_cases h : k' = k <;> simp [dfind?, h, Option.or]

/-! ## Operators (`sqlalchemy.sql.operators`)

Only the operator objects this module's adaptation tables and comparators
mention.  Each Python operator is a distinct function object compared by
identity, embedded as a constructor of an enumerated type. -/

inductive Op : Type
  | add
  | sub
  | mul
  | truediv
  | floordiv
  | concat_op
  | getitem
  | json_getitem_op
  | json_path_getitem_op
  deriving DecidableEq, Repr

/-! ## Type classes and instances

The classes of `sqltypes.py` that occur in `_expression_adaptations`
tables.  A Python class object is compared by identity (`is`), embedded as
decidable equality on `Cls`. -/

inductive Cls : Type
  | integer
  | smallInteger
  | bigInteger
  | numeric
  | float
  | double
  | date
  | time
  | datetime
  | interval
  | string
  | text
  | nullType
  | boolean
  deriving DecidableEq, Repr

/-- A concrete `TypeEngine` instance: its concrete class, the value of its
`_type_affinity` property (computed in `type_api.py`, outside this module;
carried here as data), and a configuration payload distinguishing concrete
instances of the same class (`0` is the default configuration produced by
a no-argument constructor). -/
structure TypeInst : Type where
  cls : Cls
  affinity : Cls
  cfg : Nat := 0
  deriving DecidableEq, Repr

/-- `type_api.to_instance` applied to a class object: a default-configured
instance of that class.  (`to_instance` applied to something that is
already an instance returns it unchanged; the embedding of
`_adapt_expression` below inlines that case.) -/
def to_instance (c : Cls) (affinity : Cls → Cls) : TypeInst :=
  { cls := c, affinity := affinity c, cfg := 0 }

/-- An `_expression_adaptations` table of a `HasExpressionLookup` type:
per operator, a mapping from the other operand's type affinity (a class)
to a result class.  `none` embeds "key absent" for both dict levels
(`.get(op, self._blank_dict).get(othertype, ...)` missing). -/
def AdaptTable : Type :=
  Op → Cls → Option Cls

/-- `HasExpressionLookup.Comparator._adapt_expression`:

```
othertype = other_comparator.type._type_affinity
lookup = self.type._expression_adaptations.get(op, self._blank_dict).get(
    othertype, self.type)
if lookup is othertype:
    return (op, other_comparator.type)
elif lookup is self.type._type_affinity:
    return (op, self.type)
else:
    return (op, to_instance(lookup))
```

When both `.get`s miss, `lookup` is the instance `self.type`; an instance
is never identical to a class object, so both `is` tests fail and
`to_instance(self.type)` returns `self.type` itself.  When the table has
an entry, `lookup` is a class object and the `is` tests are class
identity.  `affinity` is the class-to-affinity assignment used by
`to_instance` for default instances. -/
def adapt_expression (table : AdaptTable) (affinity : Cls → Cls)
    (self other : TypeInst) (op : Op) : Op × TypeInst :=
  let othertype := other.affinity
  match table op othertype with
  | none => (op, self)
  | some lookup =>
      if lookup = othertype then (op, other)
      else if lookup = self.affinity then (op, self)
      else (op, to_instance lookup affinity)

/-! ### The concrete adaptation tables of the module

Each `_expression_adaptations` property returns a dict whose values are
class objects; `self.__class__` is the concrete class of the instance the
property is read from, so the tables are functions of that class. -/

/-- `Integer._expression_adaptations`. -/
def integer_expression_adaptations (selfCls : Cls) : AdaptTable := fun op other =>
  match op, other with
  | .add, .date => some .date
  | .add, .integer => some selfCls
  | .add, .numeric => some .numeric
  | .mul, .interval => some .interval
  | .mul, .integer => some selfCls
  | .mul, .numeric => some .numeric
  | .truediv, .integer => some .numeric
  | .truediv, .numeric => some .numeric
  | .floordiv, .integer => some selfCls
  | .floordiv, .numeric => some .numeric
  | .sub, .integer => some selfCls
  | .sub, .numeric => some .numeric
  | _, _ => none

/-- `Numeric._expression_adaptations`. -/
def numeric_expression_adaptations (selfCls : Cls) : AdaptTable := fun op other =>
  match op, other with
  | .mul, .interval => some .interval
  | .mul, .numeric => some selfCls
  | .mul, .integer => some selfCls
  | .truediv, .numeric => some selfCls
  | .truediv, .integer => some selfCls
  | .add, .numeric => some selfCls
  | .add, .integer => some selfCls
  | .sub, .numeric => some selfCls
  | .sub, .integer => some selfCls
  | _, _ => none

/-- `DateTime._expression_adaptations`. -/
def datetime_expression_adaptations (selfCls : Cls) : AdaptTable := fun op other =>
  match op, other with
  | .add, .interval => some selfCls
  | .sub, .interval => some selfCls
  | .sub, .datetime => some .interval
  | _, _ => none

/-- `Date._expression_adaptations`. -/
def date_expression_adaptations (selfCls : Cls) : AdaptTable := fun op other =>
  match op, other with
  | .add, .integer => some selfCls
  | .add, .interval => some .datetime
  | .add, .time => some .datetime
  | .sub, .integer => some selfCls
  | .sub, .date => some .integer
  | .sub, .interval => some .datetime
  | .sub, .datetime => some .interval
  | _, _ => none

/-- `Time._expression_adaptations`. -/
def time_expression_adaptations (selfCls : Cls) : AdaptTable := fun op other =>
  match op, other with
  | .add, .date => some .datetime
  | .add, .interval => some selfCls
  | .sub, .time => some .interval
  | .sub, .interval => some selfCls
  | _, _ => none

/-- `_AbstractInterval._expression_adaptations`. -/
def interval_expression_adaptations (selfCls : Cls) : AdaptTable := fun op other =>
  match op, other with
  | .add, .date => some .datetime
  | .add, .interval => some selfCls
  | .add, .datetime => some .datetime
  | .add, .time => some .time
  | .sub, .interval => some selfCls
  | .mul, .numeric => some selfCls
  | .truediv, .numeric => some selfCls
  | _, _ => none

/-- The `_type_affinity` assignment of the module's concrete classes,
modelled from the spec: the most specific unparameterized family of a
class, "e.g. all integer variants collapse to `Integer`" (the computation
itself lives in `type_api.py`, outside this module; `_AbstractInterval`
overrides it to return `Interval`).  Used only to build concrete example
instances; the claim theorems quantify over the affinity assignment. -/
def std_affinity : Cls → Cls
  | .smallInteger => .integer
  | .bigInteger => .integer
  | .float => .numeric
  | .double => .numeric
  | .text => .string
  | c => c

/-- A default-configured instance of a class, with the standard affinity. -/
def inst (c : Cls) : TypeInst :=
  { cls := c, affinity := std_affinity c, cfg := 0 }

/-! ## `Concatenable.Comparator._adapt_expression` (claim C9)

```
if op is operators.add and isinstance(
    other_comparator, (Concatenable.Comparator, NullType.Comparator)
):
    return operators.concat_op, self.expr.type
else:
    return super(Concatenable.Comparator, self)._adapt_expression(
        op, other_comparator)
```

Whether the right comparator is a `Concatenable.Comparator` or a
`NullType.Comparator` is a property of the right operand's type (each type
carries a `comparator_factory`); it is embedded as two boolean flags of
the right operand.  The `super()` call resolves along the concrete type's
MRO; for a type that also mixes in `HasExpressionLookup` it is the
lookup-based resolution, and for a plain `TypeEngine` super (which returns
`(op, self.type)`) it coincides with the lookup-based resolution under an
empty table, since an absent entry yields the left operand's own type. -/
def concatenable_adapt_expression (table : AdaptTable) (affinity : Cls → Cls)
    (self other : TypeInst) (otherIsConcatenable otherIsNullType : Bool)
    (op : Op) : Op × TypeInst :=
  if op = Op.add ∧ (otherIsConcatenable = true ∨ otherIsNullType = true) then
    (Op.concat_op, self)
  else
    adapt_expression table affinity self other op

/-! ## Schema-bound variant resolution (claim C2)

`SchemaType._is_impl_for_variant` decides, at DDL time, whether this
type instance is the active implementation for the compiling dialect
given the variant-mapping snapshot taken at table-attachment time.
Type instances are identified by numeric ids (Python object identity);
an entry of a variant mapping is either a plain type or an `ARRAY`
wrapping an item type. -/

/-- A value of a variant mapping: either a plain type instance or an
`ARRAY` whose `item_type` is the given instance (`isinstance(typ, ARRAY)`
in the source). -/
inductive VariantEntry : Type
  | plain (id : Nat)
  | array (itemId : Nat)
  deriving DecidableEq, Repr

/-- The non-`_default` part of a variant-mapping snapshot (dialect name to
type), plus the `_default` entry that
`SchemaType._variant_mapping_for_set_table` always installs. -/
structure VariantMapping : Type where
  entries : List (String × VariantEntry)
  dflt : VariantEntry
  deriving Repr

/-- The local predicate `_we_are_the_impl` of `_is_impl_for_variant`:

```
def _we_are_the_impl(typ):
    return (
        typ is self or isinstance(typ, ARRAY) and typ.item_type is self
    )
``` -/
def we_are_the_impl (selfId : Nat) : VariantEntry → Bool
  | .plain id => id = selfId
  | .array itemId => itemId = selfId

/-- `SchemaType._is_impl_for_variant`:

```
variant_mapping = kw.pop("variant_mapping", None)
if not variant_mapping:
    return True
def _we_are_the_impl(typ): ...
if dialect.name in variant_mapping and _we_are_the_impl(
    variant_mapping[dialect.name]
):
    return True
elif dialect.name not in variant_mapping:
    return _we_are_the_impl(variant_mapping["_default"])
```

`none` embeds the absent/`None` snapshot (the falsy case; a non-`None`
snapshot always holds at least the `_default` entry).  When the dialect's
name is present but maps to another instance the Python function falls off
the end and returns `None`, which the callers treat as false. -/
def is_impl_for_variant (selfId : Nat) (vm : Option VariantMapping)
    (dialectName : String) : Bool :=
  match vm with
  | none => true
  | some m =>
      match dfind? m.entries dialectName with
      | some typ => we_are_the_impl selfId typ
      | none => we_are_the_impl selfId m.dflt

/-- The dialect capability flags consumed by this module's processors and
DDL rules (`engine.interfaces.Dialect`, outside this module; only its
attribute reads occur here). -/
structure Dialect : Type where
  name : String
  supports_native_boolean : Bool
  non_native_boolean_check_constraint : Bool
  supports_native_decimal : Bool
  supports_native_enum : Bool
  deriving Repr

/-- `Boolean._should_create_constraint`:

```
if not self._is_impl_for_variant(compiler.dialect, kw):
    return False
return (
    not compiler.dialect.supports_native_boolean
    and compiler.dialect.non_native_boolean_check_constraint
)
``` -/
def boolean_should_create_constraint (selfId : Nat) (d : Dialect)
    (vm : Option VariantMapping) : Bool :=
  if ¬ is_impl_for_variant selfId vm d.name then false
  else ¬ d.supports_native_boolean ∧ d.non_native_boolean_check_constraint

/-- DDL-time CHECK emission for booleans on one table:
`Boolean._set_table` attaches exactly one `CheckConstraint` rendering
`CHECK (col IN (0, 1))` per schema-event-holding `Boolean` instance (with
`create_constraint=True`), guarded by a `_create_rule` closed over the
variant-mapping snapshot; a constraint is rendered iff its rule evaluates
true for the compiling dialect.  `holders` is the list of distinct
constraint-holding instance ids set up for the table. -/
def emitted_boolean_checks (holders : List Nat) (d : Dialect)
    (vm : Option VariantMapping) : Nat :=
  (holders.filter (fun id => boolean_should_create_constraint id d vm)).length

/-! ## Boolean value coercion (claim C8)

Host values reaching `Boolean._strict_as_bool`: `None`, `bool`, `int`,
`str`, or any other non-integer object.  `_strict_bools` is
`frozenset([None, True, False])`, and Python set membership compares by
equality, under which `0 == False` and `1 == True`, so the integers `0`
and `1` test as members. -/

inductive BoolHost : Type
  | pynone
  | pybool (b : Bool)
  | pyint (i : Int)
  | pystr (s : String)
  | pyobj (id : Nat)
  deriving DecidableEq, Repr

/-- Outcome of boolean coercion: the value, or the raised exception
(`TypeError("Not a boolean value: %r")` /
`ValueError("Value %r is not None, True, or False")`), carrying the
offending value. -/
inductive BoolCoerced : Type
  | ok (v : BoolHost)
  | typeError (v : BoolHost)
  | valueError (v : BoolHost)
  deriving DecidableEq, Repr

/-- `value in Boolean._strict_bools`, i.e. equality-based membership in
`frozenset([None, True, False])`. -/
def in_strict_bools : BoolHost → Bool
  | .pynone => true
  | .pybool _ => true
  | .pyint i => i = 0 ∨ i = 1
  | _ => false

/-- `isinstance(value, int)` (Python `bool` is a subclass of `int`). -/
def isinstance_int : BoolHost → Bool
  | .pybool _ => true
  | .pyint _ => true
  | _ => false

/-- `Boolean._strict_as_bool`:

```
if value not in self._strict_bools:
    if not isinstance(value, int):
        raise TypeError("Not a boolean value: %r" % (value,))
    else:
        raise ValueError(
            "Value %r is not None, True, or False" % (value,))
return value
``` -/
def strict_as_bool (v : BoolHost) : BoolCoerced :=
  if ¬ in_strict_bools v then
    if ¬ isinstance_int v then .typeError v
    else .valueError v
  else .ok v

/-- Python `bool(value)` on the values accepted by `_strict_as_bool`. -/
def py_to_bool : BoolHost → Bool
  | .pybool b => b
  | .pyint i => i ≠ 0
  | _ => false

/-- Python `int(value)` on the values accepted by `_strict_as_bool`. -/
def py_to_int : BoolHost → Int
  | .pybool b => if b then 1 else 0
  | .pyint i => i
  | _ => 0

/-- `Boolean.bind_processor`'s `process`:

```
_coerce = bool if dialect.supports_native_boolean else int
def process(value):
    value = _strict_as_bool(value)
    if value is not None:
        value = _coerce(value)
    return value
``` -/
def boolean_bind_process (supports_native_boolean : Bool) (v : BoolHost) :
    BoolCoerced :=
  match strict_as_bool v with
  | .ok .pynone => .ok .pynone
  | .ok w =>
      if supports_native_boolean then .ok (.pybool (py_to_bool w))
      else .ok (.pyint (py_to_int w))
  | e => e

/-- Python truthiness of the values accepted by `_strict_as_bool`
(`None` is falsy). -/
def py_truthy : BoolHost → Bool
  | .pybool b => b
  | .pyint i => i ≠ 0
  | _ => false

/-- Outcome of `Boolean.literal_processor`'s `process`: the rendered
literal text, or the exception propagated from `_strict_as_bool`. -/
inductive BoolLiteral : Type
  | ok (s : String)
  | typeError (v : BoolHost)
  | valueError (v : BoolHost)
  deriving DecidableEq, Repr

/-- `Boolean.literal_processor`'s `process`:

```
true = compiler.visit_true(None)
false = compiler.visit_false(None)
def process(value):
    return true if self._strict_as_bool(value) else false
```

`trueText`/`falseText` are the dialect compiler's rendered boolean
literals. -/
def boolean_literal_process (trueText falseText : String) (v : BoolHost) :
    BoolLiteral :=
  match strict_as_bool v with
  | .ok w => .ok (if py_truthy w then trueText else falseText)
  | .typeError w => .typeError w
  | .valueError w => .valueError w

/-! ### First-match association lookup

`dfind?` scans the reversed insertion list; `afind?` is the plain
first-match scan, used to reason about `dfind?`. -/

/-- First-match lookup in an association list. -/
def afind? {α β : Type} [DecidableEq α] (ps : List (α × β)) (k : α) : Option β :=
  (ps.find? (fun p => p.1 = k)).map (·.2)

theorem dfind?_eq_afind?_reverse {α β : Type} [DecidableEq α]
    (ps : List (α × β)) (k : α) : dfind? ps k = afind? ps.reverse k := rfl

theorem afind?_append {α β : Type} [DecidableEq α] (ps qs : List (α × β)) (k : α) :
    afind? (ps ++ qs) k = (afind? ps k).or (afind? qs k) := by
  simp only [afind?, List.find?_append]
  cases h : List.find? (fun p => decide (p.1 = k)) ps <;> simp [Option.or, h]

theorem afind?_eq_none {α β : Type} [DecidableEq α] {ps : List (α × β)} {k : α}
    (h : ∀ p ∈ ps, p.1 ≠ k) : afind? ps k = none := by
  simp only [afind?, Option.map_eq_none']
  exact List.find?_eq_none.mpr (fun p hp => by simpa using h p hp)

theorem mem_of_afind? {α β : Type} [DecidableEq α] {ps : List (α × β)} {k : α}
    {v : β} (h : afind? ps k = some v) : (k, v) ∈ ps := by
  simp only [afind?, Option.map_eq_some'] at h
  obtain ⟨p, hp, hv⟩ := h
  have hk := List.find?_some hp
  have hmem := List.mem_of_find?_eq_some hp
  simp only [decide_eq_true_eq] at hk
  obtain ⟨p1, p2⟩ := p
  cases hk
  cases hv
  exact hmem

/-- With pairwise-distinct keys, scanning from either end finds the same
entry. -/
theorem afind?_reverse {α β : Type} [DecidableEq α] {ps : List (α × β)}
    (h : (ps.map Prod.fst).Nodup) (k : α) :
    afind? ps.reverse k = afind? ps k := by
  induction ps with
  | nil => rfl
  | cons p ps ih =>
      simp only [List.map_cons, List.nodup_cons] at h
      rw [List.reverse_cons, afind?_append]
      by_cases hk : p.1 = k
      · have hnone : afind? ps.reverse k = none := by
          refine afind?_eq_none (fun q hq => ?_)
          intro hqk
          exact h.1 (by
            refine List.mem_map.mpr ⟨q, ?_, hqk.trans hk.symm⟩
            exact List.mem_reverse.mp hq)
        rw [hnone]
        show Option.or none (afind? [p] k) = afind? (p :: ps) k
        simp [afind?, hk, Option.or]
      · have hsingle : afind? [p] k = none := by simp [afind?, hk]
        rw [hsingle, ih h.2]
        have hcons : afind? (p :: ps) k = afind? ps k := by
          simp [afind?, hk]
        rw [hcons]
        cases afind? ps k <;> rfl

/-- `zip` commutes with reversal for equal-length lists. -/
theorem reverse_zip_reverse {α β : Type} (l₁ : List α) (l₂ : List β)
    (h : l₁.length = l₂.length) :
    l₁.reverse.zip l₂.reverse = (l₁.zip l₂).reverse := by
  induction l₁ generalizing l₂ with
  | nil => simp
  | cons a l ih =>
      cases l₂ with
      | nil => simp at h
      | cons b l₂ =>
          simp only [List.reverse_cons]
          rw [List.zip_append (by simpa using h), ih l₂ (by simpa using h)]
          simp

/-- Looking a key up in a zip of itself with distinct entries. -/
theorem afind?_zip_self {α : Type} [DecidableEq α] {ks : List α}
    (hk : ks.Nodup) {x : α} (hx : x ∈ ks) :
    afind? (ks.zip ks) x = some x := by
  induction ks with
  | nil => simp at hx
  | cons k ks ih =>
      simp only [List.nodup_cons] at hk
      rcases List.mem_cons.mp hx with rfl | hx
      · simp [afind?]
      · have hkx : k ≠ x := fun h => hk.1 (h ▸ hx)
        simp only [List.zip_cons_cons]
        rw [show afind? ((k, k) :: ks.zip ks) x = afind? (ks.zip ks) x by
          simp [afind?, hkx]]
        exact ih hk.2 hx

/-- Lookup through a zip of two distinct-entry, equal-length lists and
back through the swapped zip returns to the start. -/
theorem afind?_zip_inverse {α β : Type} [DecidableEq α] [DecidableEq β]
    {ks : List α} {vs : List β} (hk : ks.Nodup) (hv : vs.Nodup)
    (hlen : ks.length = vs.length) {x : α} (hx : x ∈ ks) :
    ∃ v, v ∈ vs ∧ afind? (ks.zip vs) x = some v ∧
      afind? (vs.zip ks) v = some x := by
  induction ks generalizing vs with
  | nil => simp at hx
  | cons k ks ih =>
      cases vs with
      | nil => simp at hlen
      | cons v vs =>
          simp only [List.nodup_cons] at hk hv
          rcases List.mem_cons.mp hx with rfl | hx
          · exact ⟨v, List.mem_cons_self v vs, by simp [afind?], by simp [afind?]⟩
          · obtain ⟨w, hwmem, hw1, hw2⟩ := ih hk.2 hv.2 (by simpa using hlen) hx
            have hkx : k ≠ x := fun h => hk.1 (h ▸ hx)
            have hvw : v ≠ w := fun h => hv.1 (h ▸ hwmem)
            refine ⟨w, List.mem_cons_of_mem v hwmem, ?_, ?_⟩
            · simpa [afind?, hkx] using hw1
            · simpa [afind?, hvw] using hw2

theorem filterMap_congr_map {α β : Type} {l : List α} {g : α → Option β}
    {f : α → β} (h : ∀ a ∈ l, g a = some (f a)) :
    l.filterMap g = l.map f := by
  induction l with
  | nil => rfl
  | cons a l ih =>
      rw [List.filterMap_cons, h a (List.mem_cons_self a l),
        List.map_cons, ih (fun b hb => h b (List.mem_cons_of_mem a hb))]

/-! ## Enum lookups (claims C3, C4, C10)

Host-side values that reach the Enum lookups: `None`, a raw Python
string, or an enum-class member object (identity-keyed).  Database-side
values are strings or `None`. -/

inductive PyVal : Type
  | pynone
  | pystr (s : String)
  | member (id : Nat)
  deriving DecidableEq, Repr

/-- `isinstance(elem, str)`. -/
def PyVal.isStr : PyVal → Bool
  | .pystr _ => true
  | _ => false

/-- The state `Enum._enum_init` builds: the configured name, the `enums`
list of persisted labels, the two lookup dicts, and `validate_strings`. -/
structure EnumType : Type where
  name : Option String
  enums : List String
  valid_lookup : List (PyVal × PyVal)
  object_lookup : List (PyVal × PyVal)
  validate_strings : Bool
  deriving Repr

/-- `self._valid_lookup = dict(zip(reversed(objects), reversed(values)))`
(`Enum._setup_for_values`); on duplicate member objects the first defined
pair wins because its insertion comes last. -/
def setup_valid_lookup0 (values : List String) (objects : List PyVal) :
    List (PyVal × PyVal) :=
  objects.reverse.zip ((values.map PyVal.pystr).reverse)

/-- `self._object_lookup = dict(zip(values, objects))`
(`Enum._setup_for_values`). -/
def setup_object_lookup0 (values : List String) (objects : List PyVal) :
    List (PyVal × PyVal) :=
  (values.map PyVal.pystr).zip objects

/-- The pairs of
`self._valid_lookup.update([(value, self._valid_lookup[self._object_lookup[value]]) for value in values])`
(`Enum._setup_for_values`); the comprehension reads the two dicts as built
so far.  A missed inner lookup would raise `KeyError` in Python (it cannot
for lists produced by `_parse_into_values`); it is embedded as skipping
the pair. -/
def setup_update_pairs (values : List String) (objects : List PyVal) :
    List (PyVal × PyVal) :=
  values.filterMap (fun v =>
    match dfind? (setup_object_lookup0 values objects) (.pystr v) with
    | none => none
    | some obj =>
        match dfind? (setup_valid_lookup0 values objects) obj with
        | none => none
        | some dbv => some (.pystr v, dbv))

/-- `Enum._enum_init` after `_parse_into_values`: runs
`_setup_for_values(values, objects, kw)`, pops `validate_strings`, and
then installs `self._valid_lookup[None] = self._object_lookup[None] = None`. -/
def mkEnum (values : List String) (objects : List PyVal)
    (validate_strings : Bool) (name : Option String) : EnumType :=
  { name := name
    enums := values
    valid_lookup := setup_valid_lookup0 values objects
      ++ setup_update_pairs values objects ++ [(.pynone, .pynone)]
    object_lookup := setup_object_lookup0 values objects ++ [(.pynone, .pynone)]
    validate_strings := validate_strings }

/-- `_parse_into_values` for a plain sequence of string labels returns
`(enums, enums)`: the objects are the label strings themselves. -/
def mkStringEnum (labels : List String) (validate_strings : Bool)
    (name : Option String) : EnumType :=
  mkEnum labels (labels.map PyVal.pystr) validate_strings name

/-- Result of an Enum lookup: the value, or a raised
`LookupError("'%s' is not among the defined enum values. Enum name: %s. "
"Possible values: %s")` carrying the offending element, the enum's name
and the list of valid values that the message is formatted from. -/
inductive EnumLookup : Type
  | ok (v : PyVal)
  | lookupError (elem : PyVal) (enumName : Option String)
      (possibleValues : List String)
  deriving DecidableEq, Repr

/-- `Enum._db_value_for_elem`:

```
try:
    return self._valid_lookup[elem]
except KeyError as err:
    if not self.validate_strings and isinstance(elem, str):
        return elem
    else:
        raise LookupError(...) from err
``` -/
def db_value_for_elem (e : EnumType) (elem : PyVal) : EnumLookup :=
  match dfind? e.valid_lookup elem with
  | some v => .ok v
  | none =>
      if ¬ e.validate_strings ∧ elem.isStr then .ok elem
      else .lookupError elem e.name e.enums

/-- `Enum._object_value_for_elem`:

```
try:
    return self._object_lookup[elem]
except KeyError as err:
    raise LookupError(...) from err
``` -/
def object_value_for_elem (e : EnumType) (elem : PyVal) : EnumLookup :=
  match dfind? e.object_lookup elem with
  | some v => .ok v
  | none => .lookupError elem e.name e.enums

/-- `Enum.bind_processor`'s `process`: `_db_value_for_elem` followed by
the parent `String.bind_processor`, which returns `None` (identity). -/
def enum_bind_process (e : EnumType) (elem : PyVal) : EnumLookup :=
  db_value_for_elem e elem

/-- `Enum.result_processor`'s `process`: the parent
`String.result_processor` (which returns `None`, identity) followed by
`_object_value_for_elem`. -/
def enum_result_process (e : EnumType) (elem : PyVal) : EnumLookup :=
  object_value_for_elem e elem

/-- The concrete scenario's enum:
`Enum(["red", "green", "blue"], validate_strings=True)`. -/
def colorsEnum : EnumType :=
  mkStringEnum ["red", "green", "blue"] true none

/-! ## Numeric and Float result processors (claim C5) -/

/-- A result conversion installed by `Numeric.result_processor` /
`Float.result_processor`: either
`processors.to_decimal_processor_factory(decimal.Decimal, scale)` (an
explicit float-to-decimal conversion reconstructing `scale` fractional
digits) or `processors.to_float`.  `none` at the call sites embeds "no
processor installed". -/
inductive ResultConversion : Type
  | to_decimal (scale : Nat)
  | to_float
  deriving DecidableEq, Repr

/-- The constructor state shared by `Numeric` and `Float`
(`Float.__init__` leaves `scale` as the class attribute `None`). -/
structure NumericConfig : Type where
  precision : Option Nat
  scale : Option Nat
  decimal_return_scale : Option Nat
  asdecimal : Bool
  deriving DecidableEq, Repr

/-- `Numeric._default_decimal_return_scale = 10`. -/
def default_decimal_return_scale : Nat := 10

/-- `Numeric._effective_decimal_return_scale`:

```
if self.decimal_return_scale is not None:
    return self.decimal_return_scale
elif getattr(self, "scale", None) is not None:
    return self.scale
else:
    return self._default_decimal_return_scale
``` -/
def effective_decimal_return_scale (t : NumericConfig) : Nat :=
  match t.decimal_return_scale with
  | some d => d
  | none =>
      match t.scale with
      | some s => s
      | none => default_decimal_return_scale

/-- `Numeric.result_processor`:

```
if self.asdecimal:
    if dialect.supports_native_decimal:
        return None
    else:
        return processors.to_decimal_processor_factory(
            decimal.Decimal,
            self.scale
            if self.scale is not None
            else self._default_decimal_return_scale,
        )
else:
    if dialect.supports_native_decimal:
        return processors.to_float
    else:
        return None
``` -/
def numeric_result_processor (t : NumericConfig)
    (supports_native_decimal : Bool) : Option ResultConversion :=
  if t.asdecimal then
    if supports_native_decimal then none
    else some (.to_decimal (match t.scale with
      | some s => s
      | none => default_decimal_return_scale))
  else
    if supports_native_decimal then some .to_float
    else none

/-- `Float.result_processor`:

```
if self.asdecimal:
    return processors.to_decimal_processor_factory(
        decimal.Decimal, self._effective_decimal_return_scale
    )
elif dialect.supports_native_decimal:
    return processors.to_float
else:
    return None
``` -/
def float_result_processor (t : NumericConfig)
    (supports_native_decimal : Bool) : Option ResultConversion :=
  if t.asdecimal then some (.to_decimal (effective_decimal_return_scale t))
  else if supports_native_decimal then some .to_float
  else none

/-! ## JSON bind processing (claim C6) -/

/-- A JSON document value (what the pluggable serializer consumes after
the host value survived the null handling; scalar documents suffice for
the claims under verification). -/
inductive JsonVal : Type
  | null
  | bool (b : Bool)
  | num (n : Int)
  | str (s : String)
  deriving DecidableEq, Repr

/-- A host value presented to the JSON bind processor: the
`JSON.NULL` sentinel (`util.symbol("JSON_NULL")`), an `elements.Null`
construct, the Python `None`, or an ordinary JSON-serializable value. -/
inductive JsonHost : Type
  | jsonNullSentinel
  | sqlNullElement
  | pynone
  | val (j : JsonVal)
  deriving DecidableEq, Repr

/-- The default serializer `json.dumps` restricted to the values the
model carries; Python `None` (embedded as the `Option.none` argument)
serializes to the JSON literal `null`. -/
def json_dumps : Option JsonVal → String
  | none => "null"
  | some .null => "null"
  | some (.bool b) => if b then "true" else "false"
  | some (.num n) => toString n
  | some (.str s) => "\x22" ++ s ++ "\x22"

/-- `JSON._make_bind_processor(string_process, json_serializer)`'s
`process` (both branches differ only in whether `string_process` is
applied to the serialized text):

```
def process(value):
    if value is self.NULL:
        value = None
    elif isinstance(value, elements.Null) or (
        value is None and self.none_as_null
    ):
        return None
    serialized = json_serializer(value)
    return string_process(serialized)   # or: return json_serializer(value)
```

The result is `none` for a SQL NULL parameter and `some text` for a
serialized string parameter. -/
def json_bind_process (none_as_null : Bool)
    (string_process : Option (String → String))
    (serializer : Option JsonVal → String) (value : JsonHost) :
    Option String :=
  let emit : Option JsonVal → Option String := fun v =>
    match string_process with
    | some sp => some (sp (serializer v))
    | none => some (serializer v)
  match value with
  | .jsonNullSentinel => emit none
  | .sqlNullElement => none
  | .pynone => if none_as_null then none else emit none
  | .val j => emit (some j)

/-! ## ARRAY indexing (claim C7) -/

/-- A non-ARRAY item type of an `ARRAY` (nesting `ARRAY` inside `ARRAY`
is rejected by `ARRAY.__init__`), identified by its class. -/
structure ItemType : Type where
  cls : Cls
  deriving DecidableEq, Repr

/-- The constructor state of `ARRAY(item_type, as_tuple, dimensions,
zero_indexes)`. -/
structure ArrayType : Type where
  item_type : ItemType
  as_tuple : Bool := false
  dimensions : Option Int := none
  zero_indexes : Bool := false
  deriving DecidableEq, Repr

/-- The type of an indexed array expression: either the item type (the
dimensionality is exhausted or unconstrained) or an array type. -/
inductive IndexedType : Type
  | item (t : ItemType)
  | array (a : ArrayType)
  deriving DecidableEq, Repr

/-- The index argument of `__getitem__`: a Python `int` or a `slice`
(`step` of a plain `a[i:j]` slice is `None`). -/
inductive IndexArg : Type
  | int (i : Int)
  | slice (start stop : Int) (step : Option Int)
  deriving DecidableEq, Repr

/-- `ARRAY.Comparator._setup_getitem`:

```
if isinstance(index, slice):
    return_type = arr_type
    if arr_type.zero_indexes:
        index = slice(index.start + 1, index.stop + 1, index.step)
    slice_ = Slice(index.start, index.stop, index.step, _name=...)
    return operators.getitem, slice_, return_type
else:
    if arr_type.zero_indexes:
        index += 1
    if arr_type.dimensions is None or arr_type.dimensions == 1:
        return_type = arr_type.item_type
    else:
        adapt_kw = {"dimensions": arr_type.dimensions - 1}
        return_type = arr_type.adapt(arr_type.__class__, **adapt_kw)
    return operators.getitem, index, return_type
```

`TypeEngine.adapt` (in `type_api.py`) copies the constructor arguments of
the instance, overriding the ones passed — here only `dimensions`. -/
def array_setup_getitem (a : ArrayType) (index : IndexArg) :
    Op × IndexArg × IndexedType :=
  match index with
  | .slice start stop step =>
      let start := if a.zero_indexes then start + 1 else start
      let stop := if a.zero_indexes then stop + 1 else stop
      (.getitem, .slice start stop step, .array a)
  | .int i =>
      let i := if a.zero_indexes then i + 1 else i
      match a.dimensions with
      | none => (.getitem, .int i, .item a.item_type)
      | some d =>
          if d = 1 then (.getitem, .int i, .item a.item_type)
          else (.getitem, .int i,
            .array { a with dimensions := some (d - 1) })

/-! ## Claim theorems -/

/-- C1: for every binary operator applied to two typed operands, the left
operand's adaptation lookup determines the result type in this order: if
the right operand's type affinity is absent from the left type's table
for that operator, the result is the left operand's own type; if the
looked-up entry equals the right operand's affinity, the result is the
right operand's concrete type instance; if the looked-up entry equals the
left operand's own affinity, the result is the left operand's concrete
type instance; otherwise the result is a default-configured instance of
the looked-up type family. -/
theorem C1_expression_adaptation_resolution_order
    (table : AdaptTable) (affinity : Cls → Cls) (self other : TypeInst)
    (op : Op) :
    (table op other.affinity = none →
      adapt_expression table affinity self other op = (op, self)) ∧
    (∀ c, table op other.affinity = some c →
      (c = other.affinity →
        adapt_expression table affinity self other op = (op, other)) ∧
      (c ≠ other.affinity → c = self.affinity →
        adapt_expression table affinity self other op = (op, self)) ∧
      (c ≠ other.affinity → c ≠ self.affinity →
        adapt_expression table affinity self other op
          = (op, to_instance c affinity))) := by
  refine ⟨fun h => by simp [adapt_expression, h], fun c h => ⟨?_, ?_, ?_⟩⟩
  · intro h1
    simp only [adapt_expression, h]
    rw [if_pos h1]
  · intro h1 h2
    simp only [adapt_expression, h]
    rw [if_neg h1, if_pos h2]
  · intro h1 h2
    simp only [adapt_expression, h]
    rw [if_neg h1, if_neg h2]

/-- Witness for C1: `Integer() / Numeric(cfg 5)` has the table entry
`Numeric`, which is the right operand's affinity, so the right operand's
concrete instance is returned; `Integer() + String(cfg 3)` finds no
`string` entry under `add` in Integer's table, so the left operand's own
type is returned. -/
theorem C1_expression_adaptation_resolution_order_witness :
    adapt_expression (integer_expression_adaptations .integer) std_affinity
        (inst .integer) { cls := .numeric, affinity := .numeric, cfg := 5 }
        .truediv
      = (.truediv, { cls := .numeric, affinity := .numeric, cfg := 5 }) ∧
    adapt_expression (integer_expression_adaptations .integer) std_affinity
        (inst .integer) { cls := .string, affinity := .string, cfg := 3 }
        .add
      = (.add, inst .integer) :=
  ⟨((C1_expression_adaptation_resolution_order
      (integer_expression_adaptations .integer) std_affinity
      (inst .integer) { cls := .numeric, affinity := .numeric, cfg := 5 }
      .truediv).2 .numeric rfl).1 rfl,
   (C1_expression_adaptation_resolution_order
      (integer_expression_adaptations .integer) std_affinity
      (inst .integer) { cls := .string, affinity := .string, cfg := 3 }
      .add).1 rfl⟩

/-- C9: for every type marked concatenable, applying the add operator
with a right operand that is also concatenable or is the untyped/null
type yields the concatenation operator together with the left operand's
own type, bypassing the adaptation lookup table; for any other operator
or right operand the ordinary lookup-based resolution applies. -/
theorem C9_concatenable_add_override
    (table : AdaptTable) (affinity : Cls → Cls) (self other : TypeInst)
    (otherIsConcatenable otherIsNullType : Bool) (op : Op) :
    (op = .add → (otherIsConcatenable = true ∨ otherIsNullType = true) →
      concatenable_adapt_expression table affinity self other
        otherIsConcatenable otherIsNullType op = (.concat_op, self)) ∧
    ((op ≠ .add ∨ (otherIsConcatenable = false ∧ otherIsNullType = false)) →
      concatenable_adapt_expression table affinity self other
        otherIsConcatenable otherIsNullType op
        = adapt_expression table affinity self other op) := by
  constructor
  · intro hop hother
    simp [concatenable_adapt_expression, hop, hother]
  · intro h
    rcases h with h | ⟨h1, h2⟩
    · simp [concatenable_adapt_expression, h]
    · simp [concatenable_adapt_expression, h1, h2]

/-- Witness for C9: `String(cfg 4) + String()` resolves to the
concatenation operator with the left operand's type, and `String(cfg 4)
* Integer()` falls through to the lookup-based resolution. -/
theorem C9_concatenable_add_override_witness :
    concatenable_adapt_expression (fun _ _ => none) std_affinity
        { cls := .string, affinity := .string, cfg := 4 } (inst .string)
        true false .add
      = (.concat_op, { cls := .string, affinity := .string, cfg := 4 }) ∧
    concatenable_adapt_expression (fun _ _ => none) std_affinity
        { cls := .string, affinity := .string, cfg := 4 } (inst .integer)
        false false .mul
      = adapt_expression (fun _ _ => none) std_affinity
          { cls := .string, affinity := .string, cfg := 4 } (inst .integer)
          .mul :=
  ⟨(C9_concatenable_add_override (fun _ _ => none) std_affinity
      { cls := .string, affinity := .string, cfg := 4 } (inst .string)
      true false .add).1 rfl (Or.inl rfl),
   (C9_concatenable_add_override (fun _ _ => none) std_affinity
      { cls := .string, affinity := .string, cfg := 4 } (inst .integer)
      false false .mul).2 (Or.inr ⟨rfl, rfl⟩)⟩

/-- The C2 scenario's variant mapping: one schema-bound `Boolean`
instance (id 7) appearing under two different backend names and as the
`_default` entry. -/
def booleanVariantScenario : VariantMapping :=
  { entries := [("backend_one", .plain 7), ("backend_two", .plain 7)]
    dflt := .plain 7 }

/-- A backend lacking native boolean and requiring a check constraint,
whose name is one of the mapped backend names. -/
def nonNativeBoolDialect : Dialect :=
  { name := "backend_one"
    supports_native_boolean := false
    non_native_boolean_check_constraint := true
    supports_native_decimal := false
    supports_native_enum := false }

/-- C2: for every schema-bound type carrying a variant mapping snapshot,
the type is the active implementation for a backend iff either the
backend name is absent from the variant map and the type is (or is the
array item-type of) the `_default` entry, or the backend name is present
and maps to this exact type instance (including when this type is the
item type of an ARRAY entry); consequently a schema-bound Boolean with
`create_constraint=True` on a non-native-boolean backend that requires a
check constraint emits exactly one `CHECK (col IN (0, 1))` per table even
when the same instance appears under several backend names of a variant
mapping. -/
theorem C2_variant_resolution_and_single_boolean_check :
    (∀ (selfId : Nat) (m : VariantMapping) (dialectName : String),
      is_impl_for_variant selfId (some m) dialectName = true ↔
        ((dfind? m.entries dialectName = none ∧
            we_are_the_impl selfId m.dflt = true) ∨
         (∃ t, dfind? m.entries dialectName = some t ∧
            we_are_the_impl selfId t = true))) ∧
    emitted_boolean_checks [7] nonNativeBoolDialect
        (some booleanVariantScenario) = 1 ∧
    emitted_boolean_checks [7]
        { nonNativeBoolDialect with name := "backend_other" }
        (some booleanVariantScenario) = 1 := by
  refine ⟨fun selfId m dialectName => ?_, by decide, by decide⟩
  unfold is_impl_for_variant
  cases h : dfind? m.entries dialectName with
  | none => simp [h]
  | some t => simp [h]

/-- C5 (failing input for the code bug): on
`Numeric(precision=None, scale=None, decimal_return_scale=5,
asdecimal=True)` with a backend that returns floats
(`supports_native_decimal=False`), `Numeric.result_processor` installs a
float-to-decimal conversion with scale 10 (`self.scale if ... else
self._default_decimal_return_scale`), ignoring the configured
`decimal_return_scale=5`, while the type's own
`_effective_decimal_return_scale` — the documented resolution order,
which `Float.result_processor` does use — resolves to 5. -/
theorem C5_numeric_result_processor_ignores_decimal_return_scale :
    numeric_result_processor
        { precision := none, scale := none, decimal_return_scale := some 5,
          asdecimal := true } false
      = some (.to_decimal 10) ∧
    effective_decimal_return_scale
        { precision := none, scale := none, decimal_return_scale := some 5,
          asdecimal := true } = 5 ∧
    float_result_processor
        { precision := none, scale := none, decimal_return_scale := some 5,
          asdecimal := true } false
      = some (.to_decimal 5) ∧
    numeric_result_processor
        { precision := none, scale := none, decimal_return_scale := some 5,
          asdecimal := true } true = none := by
  decide

/-- C6: for every JSON type, the bind conversion maps the host value
`None` to SQL NULL when `none_as_null=True`, and maps the `JSON.NULL`
sentinel to the serialized JSON literal `null` regardless of the
`none_as_null` setting. -/
theorem C6_json_bind_none_and_null_sentinel (none_as_null : Bool) :
    (none_as_null = true →
      json_bind_process none_as_null none json_dumps .pynone = none) ∧
    json_bind_process none_as_null none json_dumps .jsonNullSentinel
      = some "null" ∧
    (∀ sp : String → String,
      json_bind_process none_as_null (some sp) json_dumps .jsonNullSentinel
        = some (sp "null")) := by
  refine ⟨fun h => by simp [json_bind_process, h], rfl, fun sp => rfl⟩

/-- Witness for C6: with `none_as_null=True` the host `None` binds to SQL
NULL while the sentinel still binds to the text `null`. -/
theorem C6_json_bind_none_and_null_sentinel_witness :
    json_bind_process true none json_dumps .pynone = none ∧
    json_bind_process true none json_dumps .jsonNullSentinel = some "null" :=
  ⟨(C6_json_bind_none_and_null_sentinel true).1 rfl,
   (C6_json_bind_none_and_null_sentinel true).2.1⟩

/-- The C7 scenario's array type: `ARRAY(Integer, dimensions=2)`. -/
def intArray2 : ArrayType :=
  { item_type := { cls := .integer }, dimensions := some (2 : Int) }

/-- C7: for every ARRAY type with fixed dimensionality N, indexing an
expression with an integer yields an expression typed as an array of
dimensionality N-1 (or as the item type when N = 1 or when
dimensionality is unconstrained), and indexing with a slice yields an
expression of the same array type; in particular
`ARRAY(Integer, dimensions=2)` indexed once yields
`ARRAY(Integer, dimensions=1)` and indexed twice yields plain `Integer`. -/
theorem C7_array_getitem_dimensionality
    (a : ArrayType) (i start stop : Int) (step : Option Int) :
    (∀ d : Int, a.dimensions = some d → d ≠ 1 →
      (array_setup_getitem a (.int i)).2.2
        = .array { a with dimensions := some (d - 1) }) ∧
    (a.dimensions = some 1 ∨ a.dimensions = none →
      (array_setup_getitem a (.int i)).2.2 = .item a.item_type) ∧
    (array_setup_getitem a (.slice start stop step)).2.2 = .array a ∧
    (array_setup_getitem intArray2 (.int 5)).2.2
      = .array { intArray2 with dimensions := some (1 : Int) } ∧
    (array_setup_getitem { intArray2 with dimensions := some (1 : Int) }
        (.int 6)).2.2
      = .item { cls := .integer } := by
  refine ⟨?_, ?_, rfl, by decide, by decide⟩
  · intro d hd hd1
    simp [array_setup_getitem, hd, hd1]
  · intro h
    rcases h with h | h <;> simp [array_setup_getitem, h]

/-- Witness for C7: the two-dimensional integer array indexed once with
an integer yields the one-dimensional integer array. -/
theorem C7_array_getitem_dimensionality_witness :
    (array_setup_getitem intArray2 (.int 5)).2.2
      = .array { intArray2 with dimensions := some (1 : Int) } :=
  (C7_array_getitem_dimensionality intArray2 5 0 0 none).1 2 rfl (by decide)

/-- C8: for every input value, Boolean coercion accepts exactly the
values `None`, `True`, `False`, `0` and `1`; any other value raises a
TypeError-kind failure for non-integers and a ValueError-kind failure for
other integers, and accepted values are passed through by the bind
processor (coerced to `bool` or `int` as the backend requires, with
`None` passed through unchanged). -/
theorem C8_boolean_strict_coercion (v : BoolHost) (i : Int)
    (native : Bool) :
    (strict_as_bool v = .ok v ↔
      (v = .pynone ∨ v = .pybool true ∨ v = .pybool false ∨
       v = .pyint 0 ∨ v = .pyint 1)) ∧
    (i ≠ 0 → i ≠ 1 → strict_as_bool (.pyint i) = .valueError (.pyint i)) ∧
    (isinstance_int v = false → in_strict_bools v = false →
      strict_as_bool v = .typeError v) ∧
    (boolean_bind_process native .pynone = .ok .pynone) ∧
    (strict_as_bool v = .ok v → v ≠ .pynone →
      boolean_bind_process native v
        = .ok (if native then .pybool (py_to_bool v)
               else .pyint (py_to_int v))) ∧
    (∀ trueText falseText : String,
      (strict_as_bool v = .ok v →
        boolean_literal_process trueText falseText v
          = .ok (if py_truthy v then trueText else falseText)) ∧
      (strict_as_bool v = .typeError v →
        boolean_literal_process trueText falseText v = .typeError v) ∧
      (strict_as_bool v = .valueError v →
        boolean_literal_process trueText falseText v = .valueError v)) := by
  refine ⟨?_, ?_, ?_, ?_, ?_, ?_⟩
  · cases v with
    | pynone => simp [strict_as_bool, in_strict_bools]
    | pybool b => cases b <;> simp [strict_as_bool, in_strict_bools]
    | pyint n =>
        by_cases h : n = 0 ∨ n = 1
        · rcases h with h | h <;> subst h <;>
            simp [strict_as_bool, in_strict_bools]
        · push_neg at h
          simp [strict_as_bool, in_strict_bools, isinstance_int, h.1, h.2]
    | pystr s => simp [strict_as_bool, in_strict_bools, isinstance_int]
    | pyobj id => simp [strict_as_bool, in_strict_bools, isinstance_int]
  · intro h0 h1
    simp [strict_as_bool, in_strict_bools, isinstance_int, h0, h1]
  · intro hint hmem
    simp [strict_as_bool, hmem, hint]
  · rfl
  · intro hok hne
    cases v with
    | pynone => exact absurd rfl hne
    | pybool b =>
        cases native <;> simp [boolean_bind_process, strict_as_bool,
          in_strict_bools]
    | pyint n =>
        have hn : n = 0 ∨ n = 1 := by
          by_contra h
          push_neg at h
          simp [strict_as_bool, in_strict_bools, isinstance_int,
            h.1, h.2] at hok
        rcases hn with h | h <;> subst h <;> cases native <;>
          simp [boolean_bind_process, strict_as_bool, in_strict_bools,
            py_to_bool, py_to_int]
    | pystr s =>
        simp [strict_as_bool, in_strict_bools, isinstance_int] at hok
    | pyobj id =>
        simp [strict_as_bool, in_strict_bools, isinstance_int] at hok
  · intro trueText falseText
    refine ⟨?_, ?_, ?_⟩ <;> intro h <;>
      simp [boolean_literal_process, h]

/-- Witness for C8: the integer 1 is accepted and coerced to `True` on a
native-boolean backend; the integer 2 raises the ValueError-kind
failure; a string raises the TypeError-kind failure; the literal
processor renders the accepted 1 as the dialect's true literal. -/
theorem C8_boolean_strict_coercion_witness :
    strict_as_bool (.pyint 1) = .ok (.pyint 1) ∧
    strict_as_bool (.pyint 2) = .valueError (.pyint 2) ∧
    strict_as_bool (.pystr "yes") = .typeError (.pystr "yes") ∧
    boolean_bind_process true (.pyint 1) = .ok (.pybool true) ∧
    boolean_literal_process "true" "false" (.pyint 1) = .ok "true" :=
  ⟨(C8_boolean_strict_coercion (.pyint 1) 0 true).1.mpr
      (Or.inr (Or.inr (Or.inr (Or.inr rfl)))),
   (C8_boolean_strict_coercion (.pyint 1) 2 true).2.1
      (by decide) (by decide),
   (C8_boolean_strict_coercion (.pystr "yes") 0 true).2.2.1
      rfl rfl,
   (C8_boolean_strict_coercion (.pyint 1) 0 true).2.2.2.2.1
      ((C8_boolean_strict_coercion (.pyint 1) 0 true).1.mpr
        (Or.inr (Or.inr (Or.inr (Or.inr rfl)))))
      (by decide),
   ((C8_boolean_strict_coercion (.pyint 1) 0 true).2.2.2.2.2
      "true" "false").1
      ((C8_boolean_strict_coercion (.pyint 1) 0 true).1.mpr
        (Or.inr (Or.inr (Or.inr (Or.inr rfl)))))⟩

/-- C10: for every Enum, regardless of the `validate_strings` setting,
the value `None` is present in both lookup maps and maps to `None`:
converting `None` to a database value and converting a database NULL
back to a host value both return `None` and never raise a LookupError,
so NULL round-trips through every Enum processor untouched. -/
theorem C10_enum_none_roundtrip (values : List String) (objects : List PyVal)
    (validate_strings : Bool) (nm : Option String) :
    dfind? (mkEnum values objects validate_strings nm).valid_lookup .pynone
      = some .pynone ∧
    dfind? (mkEnum values objects validate_strings nm).object_lookup .pynone
      = some .pynone ∧
    db_value_for_elem (mkEnum values objects validate_strings nm) .pynone
      = .ok .pynone ∧
    object_value_for_elem (mkEnum values objects validate_strings nm) .pynone
      = .ok .pynone ∧
    enum_bind_process (mkEnum values objects validate_strings nm) .pynone
      = .ok .pynone ∧
    enum_result_process (mkEnum values objects validate_strings nm) .pynone
      = .ok .pynone := by
  have hvalid : dfind?
      (mkEnum values objects validate_strings nm).valid_lookup .pynone
      = some .pynone := by
    show dfind? (setup_valid_lookup0 values objects
      ++ setup_update_pairs values objects ++ [(.pynone, .pynone)]) .pynone
      = some .pynone
    rw [dfind?_concat]
    simp
  have hobject : dfind?
      (mkEnum values objects validate_strings nm).object_lookup .pynone
      = some .pynone := by
    show dfind? (setup_object_lookup0 values objects
      ++ [(.pynone, .pynone)]) .pynone = some .pynone
    rw [dfind?_concat]
    simp
  refine ⟨hvalid, hobject, ?_, ?_, ?_, ?_⟩
  · simp [db_value_for_elem, hvalid]
  · simp [object_value_for_elem, hobject]
  · simp [enum_bind_process, db_value_for_elem, hvalid]
  · simp [enum_result_process, object_value_for_elem, hobject]

/-- C3: for every Enum, binding or literal-rendering a host value not
found in the enum's lookup means: if the value is a raw string and
strict validation (`validate_strings`) is disabled, the value is
returned unchanged; otherwise a LookupError is raised whose message
names the enum and lists the valid values.  In particular, for
`Enum(["red", "green", "blue"], validate_strings=True)`, binding `"red"`
yields `"red"` and binding `"purple"` raises a LookupError listing
`red, green, blue`. -/
theorem C3_enum_unrecognized_value_handling
    (values : List String) (objects : List PyVal) (validate_strings : Bool)
    (nm : Option String) (elem : PyVal) :
    (dfind? (mkEnum values objects validate_strings nm).valid_lookup elem
        = none →
      ((validate_strings = false → elem.isStr = true →
          db_value_for_elem (mkEnum values objects validate_strings nm) elem
            = .ok elem) ∧
       (validate_strings = true ∨ elem.isStr = false →
          db_value_for_elem (mkEnum values objects validate_strings nm) elem
            = .lookupError elem nm values))) ∧
    enum_bind_process colorsEnum (.pystr "red") = .ok (.pystr "red") ∧
    enum_bind_process colorsEnum (.pystr "purple")
      = .lookupError (.pystr "purple") none ["red", "green", "blue"] := by
  refine ⟨?_, by decide, by decide⟩
  intro h
  constructor
  · intro hv hs
    unfold db_value_for_elem
    rw [h]
    simp [mkEnum, hv, hs]
  · intro hcase
    unfold db_value_for_elem
    rw [h]
    rcases hcase with hv | hs
    · simp [mkEnum, hv]
    · simp [mkEnum, hs]

/-- Witness for C3: `"purple"` is absent from the colors enum's valid
lookup, `validate_strings` is enabled, and the lookup failure carries the
enum's (absent) name and the full list of valid values. -/
theorem C3_enum_unrecognized_value_handling_witness :
    db_value_for_elem colorsEnum (.pystr "purple")
      = .lookupError (.pystr "purple") none ["red", "green", "blue"] :=
  ((C3_enum_unrecognized_value_handling ["red", "green", "blue"]
      (["red", "green", "blue"].map PyVal.pystr) true none
      (.pystr "purple")).1 (by decide)).2 (Or.inl rfl)

/-! ### Structure of the Enum lookup dicts (toward claim C4) -/

/-- Every pair the update comprehension produces is keyed by one of the
`values` strings. -/
theorem update_pairs_keys (values : List String) (objects : List PyVal) :
    ∀ p ∈ setup_update_pairs values objects,
      ∃ v, v ∈ values ∧ p.1 = PyVal.pystr v := by
  intro p hp
  obtain ⟨v, hv, hg⟩ := List.mem_filterMap.mp hp
  refine ⟨v, hv, ?_⟩
  cases h1 : dfind? (setup_object_lookup0 values objects) (.pystr v) with
  | none => simp only [h1] at hg; exact absurd hg (by simp)
  | some obj =>
      simp only [h1] at hg
      cases h2 : dfind? (setup_valid_lookup0 values objects) obj with
      | none => simp only [h2] at hg; exact absurd hg (by simp)
      | some dbv =>
          simp only [h2, Option.some_inj] at hg
          rw [← hg]

/-- Reversing the initial `_valid_lookup` insertion list recovers the
un-reversed zip of objects with values. -/
theorem valid_lookup0_reverse (values : List String) (objects : List PyVal)
    (hlen : objects.length = values.length) :
    (setup_valid_lookup0 values objects).reverse
      = objects.zip (values.map PyVal.pystr) := by
  unfold setup_valid_lookup0
  rw [reverse_zip_reverse _ _ (by simpa using hlen), List.reverse_reverse]

/-- Splitting a `_valid_lookup` lookup of a non-`None` key into the
update-pair layer and the initial zip layer. -/
theorem dfind?_valid_lookup_decomp (values : List String)
    (objects : List PyVal) {x : PyVal} (hnn : x ≠ .pynone) :
    dfind? (setup_valid_lookup0 values objects
        ++ setup_update_pairs values objects ++ [(.pynone, .pynone)]) x
      = ((afind? (setup_update_pairs values objects).reverse x).or
         (afind? (setup_valid_lookup0 values objects).reverse x)) := by
  rw [dfind?_eq_afind?_reverse, List.reverse_append, List.reverse_append,
    afind?_append, afind?_append]
  have h1 : afind? [((PyVal.pynone : PyVal), (PyVal.pynone : PyVal))].reverse x
      = none := by
    refine afind?_eq_none (fun q hq => ?_)
    simp only [List.reverse_singleton, List.mem_singleton] at hq
    rw [hq]
    exact fun h => hnn h.symm
  rw [h1]
  cases afind? (setup_update_pairs values objects).reverse x <;> rfl

/-- Splitting an `_object_lookup` lookup of a non-`None` key. -/
theorem dfind?_object_lookup_decomp (values : List String)
    (objects : List PyVal) {x : PyVal} (hnn : x ≠ .pynone) :
    dfind? (setup_object_lookup0 values objects ++ [(.pynone, .pynone)]) x
      = afind? (setup_object_lookup0 values objects).reverse x := by
  rw [dfind?_eq_afind?_reverse, List.reverse_append, afind?_append]
  have h1 : afind? [((PyVal.pynone : PyVal), (PyVal.pynone : PyVal))].reverse x
      = none := by
    refine afind?_eq_none (fun q hq => ?_)
    simp only [List.reverse_singleton, List.mem_singleton] at hq
    rw [hq]
    exact fun h => hnn h.symm
  rw [h1]
  cases afind? (setup_object_lookup0 values objects).reverse x <;> rfl

theorem pystr_injective : Function.Injective PyVal.pystr :=
  fun _ _ h => by injection h

/-- C4: for every Enum built from distinct labels, and every valid member
x, converting x to its persisted database string and then converting that
string back yields x again; the inverse lookup raises a LookupError-kind
failure, carrying the enum's name and valid-value list, for any database
string outside the defined set.  `_parse_into_values` produces either the
label strings themselves as objects (plain string enums) or member
objects (enum classes); the shape hypothesis covers both. -/
theorem C4_enum_roundtrip_and_inverse_failure
    (values : List String) (objects : List PyVal) (validate_strings : Bool)
    (nm : Option String)
    (hnodup : values.Nodup)
    (hlen : objects.length = values.length)
    (hshape : objects = values.map PyVal.pystr ∨
      (objects.Nodup ∧ ∀ x ∈ objects, ∃ i, x = PyVal.member i)) :
    (∀ x ∈ objects, ∃ dbv : String, dbv ∈ values ∧
        db_value_for_elem (mkEnum values objects validate_strings nm) x
          = .ok (.pystr dbv) ∧
        object_value_for_elem (mkEnum values objects validate_strings nm)
            (.pystr dbv) = .ok x) ∧
    (∀ s : String, s ∉ values →
        object_value_for_elem (mkEnum values objects validate_strings nm)
            (.pystr s)
          = .lookupError (.pystr s) nm values) := by
  have hvstr : (values.map PyVal.pystr).Nodup := hnodup.map pystr_injective
  have hkeysO0 : (setup_object_lookup0 values objects).map Prod.fst
      = values.map PyVal.pystr := by
    unfold setup_object_lookup0
    exact List.map_fst_zip _ _ (by simp [hlen])
  have hpart2 : ∀ s : String, s ∉ values →
      object_value_for_elem (mkEnum values objects validate_strings nm)
        (.pystr s) = .lookupError (.pystr s) nm values := by
    intro s hs
    have hnone : dfind?
        (mkEnum values objects validate_strings nm).object_lookup
        (.pystr s) = none := by
      show dfind? (setup_object_lookup0 values objects
        ++ [(.pynone, .pynone)]) (.pystr s) = none
      rw [dfind?_object_lookup_decomp values objects (by intro h; cases h)]
      refine afind?_eq_none (fun p hp => ?_)
      have hp' : p.1 ∈ (setup_object_lookup0 values objects).map Prod.fst :=
        List.mem_map_of_mem Prod.fst (List.mem_reverse.mp hp)
      rw [hkeysO0] at hp'
      obtain ⟨v, hv, hpv⟩ := List.mem_map.mp hp'
      intro heq
      rw [heq] at hpv
      exact hs (pystr_injective hpv ▸ hv)
    unfold object_value_for_elem
    simp only [hnone]
    rfl
  refine ⟨?_, hpart2⟩
  rcases hshape with hstr | ⟨honodup, hmem⟩
  · -- plain string enum: the objects are the label strings themselves
    subst hstr
    have hO0 : ∀ v ∈ values,
        dfind? (setup_object_lookup0 values (values.map PyVal.pystr))
          (.pystr v) = some (.pystr v) := by
      intro v hv
      show dfind?
        ((values.map PyVal.pystr).zip (values.map PyVal.pystr)) (.pystr v) = _
      rw [dfind?_eq_afind?_reverse,
        afind?_reverse (by rw [List.map_fst_zip _ _ (le_refl _)]; exact hvstr)]
      exact afind?_zip_self hvstr (List.mem_map_of_mem _ hv)
    have hA : ∀ v ∈ values,
        dfind? (setup_valid_lookup0 values (values.map PyVal.pystr))
          (.pystr v) = some (.pystr v) := by
      intro v hv
      rw [dfind?_eq_afind?_reverse,
        valid_lookup0_reverse values _ (by simp)]
      exact afind?_zip_self hvstr (List.mem_map_of_mem _ hv)
    have hU : setup_update_pairs values (values.map PyVal.pystr)
        = (values.map PyVal.pystr).zip (values.map PyVal.pystr) := by
      unfold setup_update_pairs
      rw [filterMap_congr_map
        (f := fun v => (PyVal.pystr v, PyVal.pystr v))
        (fun v hv => by simp only [hO0 v hv, hA v hv])]
      exact (List.zip_map' PyVal.pystr PyVal.pystr values).symm
    intro x hx
    obtain ⟨v, hv, rfl⟩ := List.mem_map.mp hx
    refine ⟨v, hv, ?_, ?_⟩
    · have hvl : dfind?
          (mkEnum values (values.map PyVal.pystr) validate_strings nm).valid_lookup
          (.pystr v) = some (.pystr v) := by
        show dfind? (setup_valid_lookup0 values (values.map PyVal.pystr)
          ++ setup_update_pairs values (values.map PyVal.pystr)
          ++ [(.pynone, .pynone)]) (.pystr v) = some (.pystr v)
        rw [dfind?_valid_lookup_decomp values _ (by intro h; cases h)]
        have hupd : afind?
            (setup_update_pairs values (values.map PyVal.pystr)).reverse
            (.pystr v) = some (.pystr v) := by
          rw [hU, afind?_reverse
            (by rw [List.map_fst_zip _ _ (le_refl _)]; exact hvstr)]
          exact afind?_zip_self hvstr (List.mem_map_of_mem _ hv)
        rw [hupd]
        rfl
      unfold db_value_for_elem
      simp only [hvl]
    · have hol : dfind?
          (mkEnum values (values.map PyVal.pystr) validate_strings nm).object_lookup
          (.pystr v) = some (.pystr v) := by
        show dfind? (setup_object_lookup0 values (values.map PyVal.pystr)
          ++ [(.pynone, .pynone)]) (.pystr v) = some (.pystr v)
        rw [dfind?_object_lookup_decomp values _ (by intro h; cases h),
          afind?_reverse (by rw [hkeysO0]; exact hvstr)]
        exact afind?_zip_self hvstr (List.mem_map_of_mem _ hv)
      unfold object_value_for_elem
      simp only [hol]
  · -- enum-class members as objects
    intro x hx
    obtain ⟨i, rfl⟩ := hmem x hx
    have hupd : afind? (setup_update_pairs values objects).reverse
        (.member i) = none := by
      refine afind?_eq_none (fun p hp => ?_)
      obtain ⟨v, hv, hpv⟩ :=
        update_pairs_keys values objects p (List.mem_reverse.mp hp)
      rw [hpv]
      intro h
      cases h
    obtain ⟨w, hwmem, hw1, hw2⟩ := afind?_zip_inverse honodup hvstr
      (by simpa using hlen) hx
    obtain ⟨dbv, hdbv, rfl⟩ := List.mem_map.mp hwmem
    refine ⟨dbv, hdbv, ?_, ?_⟩
    · have hvl : dfind?
          (mkEnum values objects validate_strings nm).valid_lookup
          (.member i) = some (.pystr dbv) := by
        show dfind? (setup_valid_lookup0 values objects
          ++ setup_update_pairs values objects
          ++ [(.pynone, .pynone)]) (.member i) = some (.pystr dbv)
        rw [dfind?_valid_lookup_decomp values objects (by intro h; cases h),
          hupd, valid_lookup0_reverse values objects hlen]
        exact hw1
      unfold db_value_for_elem
      simp only [hvl]
    · have hol : dfind?
          (mkEnum values objects validate_strings nm).object_lookup
          (.pystr dbv) = some (.member i) := by
        show dfind? (setup_object_lookup0 values objects
          ++ [(.pynone, .pynone)]) (.pystr dbv) = some (.member i)
        rw [dfind?_object_lookup_decomp values objects (by intro h; cases h),
          afind?_reverse (by rw [hkeysO0]; exact hvstr)]
        exact hw2
      unfold object_value_for_elem
      simp only [hol]

/-- Witness for C4: the colors enum round-trips its member `"green"` and
rejects the database value `"magenta"` with the LookupError data. -/
theorem C4_enum_roundtrip_and_inverse_failure_witness :
    (db_value_for_elem colorsEnum (.pystr "green") = .ok (.pystr "green") ∧
     object_value_for_elem colorsEnum (.pystr "green")
       = .ok (.pystr "green")) ∧
    object_value_for_elem colorsEnum (.pystr "magenta")
      = .lookupError (.pystr "magenta") none ["red", "green", "blue"] := by
  have h := C4_enum_roundtrip_and_inverse_failure
    ["red", "green", "blue"] (["red", "green", "blue"].map PyVal.pystr)
    true none (by decide) (by decide) (Or.inl rfl)
  have h2 : object_value_for_elem colorsEnum (.pystr "magenta")
      = .lookupError (.pystr "magenta") none ["red", "green", "blue"] :=
    h.2 "magenta" (by decide)
  obtain ⟨dbv, hdbv, hdb, hobj⟩ := h.1 (.pystr "green") (by decide)
  have hval : db_value_for_elem
      (mkEnum ["red", "green", "blue"]
        (["red", "green", "blue"].map PyVal.pystr) true none)
      (.pystr "green") = .ok (.pystr "green") := by decide
  have h3 : EnumLookup.ok (PyVal.pystr dbv)
      = EnumLookup.ok (PyVal.pystr "green") := hdb.symm.trans hval
  have h4 : PyVal.pystr dbv = PyVal.pystr "green" := by injection h3
  have h5 : dbv = "green" := pystr_injective h4
  subst h5
  exact ⟨⟨hdb, hobj⟩, h2⟩

end SqlTypes
